import Mathlib

/-!
Verification of the earn-points repository: a shallow embedding of the
membership classifier, the provisioning script, the signup and update
triggers, the row-level-security policies, and the screen fetch logic,
together with theorems settling the specification claims.
-/

namespace EarnPoints

/-! ### Membership classifier (ProfileScreen and HomeScreen) -/

/-- Result record of `getMembershipLevel` in the Profile screen:
level, color and badge icon. -/
structure MembershipInfoP where
  level : String
  color : String
  icon : String
deriving DecidableEq, Repr

/-- Result record of `getMembershipLevel` in the Home screen:
level and color only. -/
structure MembershipInfoH where
  level : String
  color : String
deriving DecidableEq, Repr

namespace ProfileScreen

/-- `getMembershipLevel` of the Profile screen: chained threshold tests
on the point balance. -/
def getMembershipLevel (points : Int) : MembershipInfoP :=
  if points ≥ 10000 then ⟨"Diamond", "#8B5CF6", "💎"⟩
  else if points ≥ 5000 then ⟨"Gold", "#F59E0B", "🏆"⟩
  else if points ≥ 1000 then ⟨"Silver", "#6B7280", "🥈"⟩
  else ⟨"Bronze", "#92400E", "🥉"⟩

end ProfileScreen

namespace HomeScreen

/-- `getMembershipLevel` of the Home screen: the same chained threshold
tests, without the icon field. -/
def getMembershipLevel (points : Int) : MembershipInfoH :=
  if points ≥ 10000 then ⟨"Diamond", "#8B5CF6"⟩
  else if points ≥ 5000 then ⟨"Gold", "#F59E0B"⟩
  else if points ≥ 1000 then ⟨"Silver", "#6B7280"⟩
  else ⟨"Bronze", "#92400E"⟩

end HomeScreen

/-- C1: the membership classifier is a pure total function of the point
balance; for every integer p ≥ 0 it returns exactly the tier and color of
the spec table (Diamond/#8B5CF6 for p ≥ 10000, Gold/#F59E0B for
5000 ≤ p ≤ 9999, Silver/#6B7280 for 1000 ≤ p ≤ 4999, Bronze/#92400E for
p < 1000), boundaries inclusive at the lower bound, and the two screens'
implementations agree on level and color at every input. -/
theorem membership_classifier_correct (p : Int) (hp : 0 ≤ p) :
    (ProfileScreen.getMembershipLevel p).level = (HomeScreen.getMembershipLevel p).level ∧
    (ProfileScreen.getMembershipLevel p).color = (HomeScreen.getMembershipLevel p).color ∧
    (10000 ≤ p → HomeScreen.getMembershipLevel p = ⟨"Diamond", "#8B5CF6"⟩) ∧
    (5000 ≤ p → p ≤ 9999 → HomeScreen.getMembershipLevel p = ⟨"Gold", "#F59E0B"⟩) ∧
    (1000 ≤ p → p ≤ 4999 → HomeScreen.getMembershipLevel p = ⟨"Silver", "#6B7280"⟩) ∧
    (p < 1000 → HomeScreen.getMembershipLevel p = ⟨"Bronze", "#92400E"⟩) := by
  refine ⟨?_, ?_, ?_, ?_, ?_, ?_⟩ <;>
    simp only [ProfileScreen.getMembershipLevel, HomeScreen.getMembershipLevel] <;>
    split_ifs <;> intros <;> first | rfl | omega

/-- Witness for C1: the classifier evaluated at every boundary value named
by the spec. -/
theorem membership_classifier_correct_witness :
    HomeScreen.getMembershipLevel 999 = ⟨"Bronze", "#92400E"⟩ ∧
    HomeScreen.getMembershipLevel 1000 = ⟨"Silver", "#6B7280"⟩ ∧
    HomeScreen.getMembershipLevel 4999 = ⟨"Silver", "#6B7280"⟩ ∧
    HomeScreen.getMembershipLevel 5000 = ⟨"Gold", "#F59E0B"⟩ ∧
    HomeScreen.getMembershipLevel 9999 = ⟨"Gold", "#F59E0B"⟩ ∧
    HomeScreen.getMembershipLevel 10000 = ⟨"Diamond", "#8B5CF6"⟩ :=
  ⟨((membership_classifier_correct 999 (by decide)).2.2.2.2.2 (by decide)),
   ((membership_classifier_correct 1000 (by decide)).2.2.2.2.1 (by decide) (by decide)),
   ((membership_classifier_correct 4999 (by decide)).2.2.2.2.1 (by decide) (by decide)),
   ((membership_classifier_correct 5000 (by decide)).2.2.2.1 (by decide) (by decide)),
   ((membership_classifier_correct 9999 (by decide)).2.2.2.1 (by decide) (by decide)),
   ((membership_classifier_correct 10000 (by decide)).2.2.1 (by decide))⟩

/-! ### Provisioning script (migration) -/

/-- Catalog state of the backing store: names of tables, tables with
row-level security enabled, policies, functions and triggers. -/
structure Store where
  tables : List String
  rlsEnabledOn : List String
  policies : List String
  functions : List String
  triggers : List String
deriving DecidableEq, Repr

/-- A store with no objects yet (fresh project, before the migration). -/
def emptyStore : Store := ⟨[], [], [], [], []⟩

/-- CREATE TABLE IF NOT EXISTS: a no-op when the table already exists. -/
def createTableIfNotExists (n : String) (s : Store) : Store :=
  if n ∈ s.tables then s else { s with tables := s.tables ++ [n] }

/-- ALTER TABLE ... ENABLE ROW LEVEL SECURITY: idempotent. -/
def enableRowLevelSecurity (n : String) (s : Store) : Store :=
  if n ∈ s.rlsEnabledOn then s else { s with rlsEnabledOn := s.rlsEnabledOn ++ [n] }

/-- CREATE POLICY: unguarded — fails with a duplicate-object error when a
policy of that name already exists on the table. -/
def createPolicy (n : String) (s : Store) : Except String Store :=
  if n ∈ s.policies then Except.error ("policy already exists: " ++ n)
  else Except.ok { s with policies := s.policies ++ [n] }

/-- CREATE OR REPLACE FUNCTION: replaces the body when present, so on the
catalog level it only ensures the name exists. -/
def createOrReplaceFunction (n : String) (s : Store) : Store :=
  if n ∈ s.functions then s else { s with functions := s.functions ++ [n] }

/-- The DO block guarding trigger creation: CREATE TRIGGER only when no
trigger of that name exists in pg_trigger. -/
def createTriggerIfAbsent (n : String) (s : Store) : Store :=
  if n ∈ s.triggers then s else { s with triggers := s.triggers ++ [n] }

/-- The provisioning script of part_000, statement by statement in source
order. Execution is per-statement transactional: a failing statement
aborts the rest of the script, keeping the effects of the statements
already executed. Returns the resulting store and the error of the
aborting statement, if any. -/
def runMigration (s : Store) : Store × Option String :=
  let s1 := createTableIfNotExists "user_profiles" s
  let s2 := enableRowLevelSecurity "user_profiles" s1
  match createPolicy "Users can read own profile" s2 with
  | Except.error e => (s2, some e)
  | Except.ok s3 =>
    match createPolicy "Users can update own profile" s3 with
    | Except.error e => (s3, some e)
    | Except.ok s4 =>
      match createPolicy "Users can insert own profile" s4 with
      | Except.error e => (s4, some e)
      | Except.ok s5 =>
        let s6 := createOrReplaceFunction "handle_new_user" s5
        let s7 := createTriggerIfAbsent "on_auth_user_created" s6
        let s8 := createOrReplaceFunction "update_updated_at_column" s7
        let s9 := createTriggerIfAbsent "update_user_profiles_updated_at" s8
        (s9, none)

/-- C2 counterexample: running the provisioning script twice from a fresh
store is not error-free — the second run aborts with a duplicate-object
error at the first unguarded CREATE POLICY statement, contradicting the
claim that no statement of the second run fails. -/
theorem provisioning_second_run_fails :
    (runMigration (runMigration emptyStore).1).2 =
      some ("policy already exists: " ++ "Users can read own profile") := by
  decide

/-- C2 amended: the first run succeeds; the second run against the same
store aborts at the first CREATE POLICY statement (policies are not
guarded), yet no object is duplicated — after the failed second run the
store still holds exactly one user_profiles table, exactly one policy of
each name, and exactly one of each of the two triggers. -/
theorem provisioning_reruns_duplicate_nothing :
    (runMigration emptyStore).2 = none ∧
    (runMigration (runMigration emptyStore).1).2.isSome = true ∧
    ((runMigration (runMigration emptyStore).1).1.tables.count "user_profiles" = 1) ∧
    ((runMigration (runMigration emptyStore).1).1.policies.count
        "Users can read own profile" = 1) ∧
    ((runMigration (runMigration emptyStore).1).1.policies.count
        "Users can update own profile" = 1) ∧
    ((runMigration (runMigration emptyStore).1).1.policies.count
        "Users can insert own profile" = 1) ∧
    ((runMigration (runMigration emptyStore).1).1.triggers.count
        "on_auth_user_created" = 1) ∧
    ((runMigration (runMigration emptyStore).1).1.triggers.count
        "update_user_profiles_updated_at" = 1) := by
  decide

/-! ### UserProfile rows, signup trigger, update trigger -/

/-- One row of the user_profiles table. Timestamps are modelled as
naturals. -/
structure UserProfileRow where
  id : String
  email : String
  full_name : String
  points : Int
  created_at : Nat
  updated_at : Nat
deriving DecidableEq, Repr

/-- The points column default declared by CREATE TABLE: DEFAULT 0. -/
def pointsColumnDefault : Int := 0

/-- Inserting a row without an explicit points value: the column default
applies; created_at and updated_at default to now(). -/
def insertRowWithDefaults (id email fn : String) (now : Nat) : UserProfileRow :=
  ⟨id, email, fn, pointsColumnDefault, now, now⟩

/-- A row of the external identity table (auth.users): id, email and the
optional full_name field of the signup metadata. -/
structure AuthUser where
  id : String
  email : String
  metaFullName : Option String
deriving DecidableEq, Repr

/-- The handle_new_user trigger function: builds the profile row inserted
for a new identity — id and email copied, full_name coalesced to the
empty string, points fixed at 1000. -/
def handle_new_user (u : AuthUser) (now : Nat) : UserProfileRow :=
  { id := u.id
    email := u.email
    full_name := u.metaFullName.getD ""
    points := 1000
    created_at := now
    updated_at := now }

/-- The database contents the triggers act on: identity rows and profile
rows. -/
structure Database where
  authUsers : List AuthUser
  profiles : List UserProfileRow
deriving DecidableEq, Repr

/-- Inserting an identity with the on_auth_user_created trigger installed:
AFTER INSERT, FOR EACH ROW, handle_new_user appends exactly one profile
row. -/
def insertAuthUser (u : AuthUser) (now : Nat) (db : Database) : Database :=
  { authUsers := db.authUsers ++ [u]
    profiles := db.profiles ++ [handle_new_user u now] }

/-- C3 counterexample: a row inserted without an explicit points value
gets the column default 0, not 1000 — the claim that every row comes into
existence with points = 1000 fails on the CREATE TABLE default. -/
theorem points_default_zero_counterexample :
    (insertRowWithDefaults "u9" "b@x.com" "" 0).points = 0 ∧
    ¬ (insertRowWithDefaults "u9" "b@x.com" "" 0).points = 1000 := by
  decide

/-- C3 amended: rows created by the signup trigger have points = 1000,
but the declared column default is 0, so a row inserted without an
explicit points value has points = 0. -/
theorem points_at_creation (u : AuthUser) (now : Nat)
    (id email fn : String) (t : Nat) :
    (handle_new_user u now).points = 1000 ∧
    (insertRowWithDefaults id email fn t).points = 0 := by
  exact ⟨rfl, rfl⟩

/-- C4: inserting a new identity fires the signup trigger exactly once,
appending exactly one profile row with id and email copied from the
identity, full_name taken from the signup metadata defaulting to the
empty string, and points = 1000; in particular identity u1 with email
a@x.com and no display name yields the row
(id=u1, email=a@x.com, full_name=empty, points=1000). -/
theorem signup_trigger_inserts_one_row (u : AuthUser) (now : Nat) (db : Database) :
    (insertAuthUser u now db).profiles = db.profiles ++ [handle_new_user u now] ∧
    (handle_new_user u now).id = u.id ∧
    (handle_new_user u now).email = u.email ∧
    (handle_new_user u now).full_name = u.metaFullName.getD "" ∧
    (handle_new_user u now).points = 1000 ∧
    handle_new_user ⟨"u1", "a@x.com", none⟩ now =
      ⟨"u1", "a@x.com", "", 1000, now, now⟩ := by
  exact ⟨rfl, rfl, rfl, rfl, rfl, rfl⟩

/-- The update_updated_at_column trigger function: BEFORE UPDATE it
overwrites NEW.updated_at with now() and leaves every other field of NEW
alone. -/
def update_updated_at_column (now : Nat) (new : UserProfileRow) : UserProfileRow :=
  { new with updated_at := now }

/-- C5: when a row is updated at a time strictly later than its stored
updated_at, the trigger sets updated_at to the current time — strictly
greater than the prior value — while created_at and every field the
update itself did not touch pass through the trigger unchanged. -/
theorem update_trigger_refreshes_updated_at
    (now : Nat) (old new : UserProfileRow) (h : old.updated_at < now) :
    (update_updated_at_column now new).updated_at = now ∧
    old.updated_at < (update_updated_at_column now new).updated_at ∧
    (update_updated_at_column now new).created_at = new.created_at ∧
    (update_updated_at_column now new).id = new.id ∧
    (update_updated_at_column now new).email = new.email ∧
    (update_updated_at_column now new).full_name = new.full_name ∧
    (update_updated_at_column now new).points = new.points := by
  exact ⟨rfl, h, rfl, rfl, rfl, rfl, rfl⟩

/-- Witness for C5 at a concrete row and clock: an update at time 5 of a
row last written at time 3 leaves updated_at = 5 > 3 and created_at
untouched. -/
theorem update_trigger_refreshes_updated_at_witness :
    (update_updated_at_column 5 ⟨"u1", "a@x.com", "", 1000, 3, 3⟩).updated_at = 5 ∧
    (3 : Nat) < (update_updated_at_column 5 ⟨"u1", "a@x.com", "", 1000, 3, 3⟩).updated_at ∧
    (update_updated_at_column 5 ⟨"u1", "a@x.com", "", 1000, 3, 3⟩).created_at = 3 :=
  ⟨(update_trigger_refreshes_updated_at 5 ⟨"u1", "a@x.com", "", 1000, 3, 3⟩
      ⟨"u1", "a@x.com", "", 1000, 3, 3⟩ (by decide)).1,
   (update_trigger_refreshes_updated_at 5 ⟨"u1", "a@x.com", "", 1000, 3, 3⟩
      ⟨"u1", "a@x.com", "", 1000, 3, 3⟩ (by decide)).2.1,
   (update_trigger_refreshes_updated_at 5 ⟨"u1", "a@x.com", "", 1000, 3, 3⟩
      ⟨"u1", "a@x.com", "", 1000, 3, 3⟩ (by decide)).2.2.1⟩

/-! ### Screen fetch logic (HomeScreen and ProfileScreen share the same
fetchUserProfile body) -/

/-- Insert a comma after every third character of a reversed digit list,
the helper of en-US locale grouping. -/
def insertSeparatorsRev (l : List Char) : List Char :=
  match l with
  | a :: b :: c :: d :: rest => a :: b :: c :: ',' :: insertSeparatorsRev (d :: rest)
  | l => l
termination_by l.length

/-- Number.toLocaleString for an integer in the en-US locale: decimal
digits grouped in threes by commas, minus sign in front. -/
def toLocaleStringEnUS (n : Int) : String :=
  let grouped := String.mk ((insertSeparatorsRev (toString n.natAbs).toList.reverse).reverse)
  if n < 0 then "-" ++ grouped else grouped

/-- formatPoints of the Home screen: points.toLocaleString(). -/
def formatPoints (points : Int) : String :=
  toLocaleStringEnUS points

/-- Result of the awaited supabase single-row query: a row, an error
object returned by the client, or a thrown exception. -/
inductive FetchOutcome
  | success (row : UserProfileRow)
  | failure (err : String)
  | thrown (err : String)
deriving DecidableEq, Repr

/-- Per-screen component state: the fetched profile, the loading and
refreshing flags, the alerts shown so far, and a count of store calls
made. -/
structure ScreenState where
  userProfile : Option UserProfileRow
  loading : Bool
  refreshing : Bool
  alerts : List (String × String)
  storeCalls : Nat
deriving DecidableEq, Repr

/-- The fetchUserProfile function common to both screens: an early return
when the identity handle is null (before the try block, so loading is not
touched); otherwise one store call, then either setUserProfile on
success, an alert on a client error, or an alert on a thrown exception,
with setLoading(false) in the finally block on every path through the
try. -/
def fetchUserProfile (user : Option AuthUser) (outcome : FetchOutcome)
    (s : ScreenState) : ScreenState :=
  match user with
  | none => s
  | some _ =>
    let s1 := { s with storeCalls := s.storeCalls + 1 }
    match outcome with
    | FetchOutcome.success row =>
        { s1 with userProfile := some row, loading := false }
    | FetchOutcome.failure _ =>
        { s1 with alerts := s1.alerts ++ [("Error", "Failed to load profile data")],
                  loading := false }
    | FetchOutcome.thrown _ =>
        { s1 with alerts := s1.alerts ++ [("Error", "Something went wrong")],
                  loading := false }

/-- The points text of the Home screen body:
userProfile ? formatPoints(userProfile.points) : the literal 0. -/
def pointsDisplay (s : ScreenState) : String :=
  match s.userProfile with
  | some p => formatPoints p.points
  | none => "0"

/-- What the Home screen renders: the Loading view while loading is true,
otherwise the profile view over the current (possibly absent) profile. -/
inductive HomeRender
  | loadingView
  | profileView (profile : Option UserProfileRow)
deriving DecidableEq, Repr

/-- The top-level branch of the Home screen render. -/
def homeRender (s : ScreenState) : HomeRender :=
  if s.loading then HomeRender.loadingView else HomeRender.profileView s.userProfile

/-- The onRefresh handler: setRefreshing(true), await fetchUserProfile,
setRefreshing(false); listed as the sequence of states the screen passes
through. -/
def onRefreshTrace (user : Option AuthUser) (outcome : FetchOutcome)
    (s : ScreenState) : List ScreenState :=
  let s1 := { s with refreshing := true }
  let s2 := fetchUserProfile user outcome s1
  let s3 := { s2 with refreshing := false }
  [s, s1, s2, s3]

/-- C6: a failing fetch (client error or thrown exception) appends exactly
one generic alert, makes exactly one store call (no retry), leaves the
stored profile in the no-data state when it was empty, sets loading to
false, and the points display falls back to 0. -/
theorem failed_fetch_alert_and_zero_display
    (u : AuthUser) (e : String) (s : ScreenState) (h : s.userProfile = none) :
    ((fetchUserProfile (some u) (FetchOutcome.failure e) s).userProfile = none) ∧
    pointsDisplay (fetchUserProfile (some u) (FetchOutcome.failure e) s) = "0" ∧
    (fetchUserProfile (some u) (FetchOutcome.failure e) s).alerts =
      s.alerts ++ [("Error", "Failed to load profile data")] ∧
    (fetchUserProfile (some u) (FetchOutcome.failure e) s).storeCalls = s.storeCalls + 1 ∧
    (fetchUserProfile (some u) (FetchOutcome.failure e) s).loading = false ∧
    ((fetchUserProfile (some u) (FetchOutcome.thrown e) s).userProfile = none) ∧
    pointsDisplay (fetchUserProfile (some u) (FetchOutcome.thrown e) s) = "0" ∧
    (fetchUserProfile (some u) (FetchOutcome.thrown e) s).alerts =
      s.alerts ++ [("Error", "Something went wrong")] ∧
    (fetchUserProfile (some u) (FetchOutcome.thrown e) s).storeCalls = s.storeCalls + 1 ∧
    (fetchUserProfile (some u) (FetchOutcome.thrown e) s).loading = false := by
  simp [fetchUserProfile, pointsDisplay, h]

/-- Witness for C6: the failing fetch evaluated on a fresh screen state. -/
theorem failed_fetch_alert_and_zero_display_witness :
    ((fetchUserProfile (some ⟨"u1", "a@x.com", none⟩) (FetchOutcome.failure "boom")
        ⟨none, true, false, [], 0⟩).userProfile = none) ∧
    pointsDisplay (fetchUserProfile (some ⟨"u1", "a@x.com", none⟩)
        (FetchOutcome.failure "boom") ⟨none, true, false, [], 0⟩) = "0" :=
  ⟨(failed_fetch_alert_and_zero_display ⟨"u1", "a@x.com", none⟩ "boom"
      ⟨none, true, false, [], 0⟩ rfl).1,
   (failed_fetch_alert_and_zero_display ⟨"u1", "a@x.com", none⟩ "boom"
      ⟨none, true, false, [], 0⟩ rfl).2.1⟩

/-- C7: a pull-to-refresh on a screen currently displaying a fetched
profile never clears the stored profile: at every state the screen passes
through, the profile is still the old value, except that after a
successful fetch it is the newly fetched row — never none. -/
theorem refresh_never_clears_profile
    (user : Option AuthUser) (outcome : FetchOutcome) (s : ScreenState)
    (p : UserProfileRow) (h : s.userProfile = some p) :
    ∀ st ∈ onRefreshTrace user outcome s,
      st.userProfile = some p ∨
      ∃ row, outcome = FetchOutcome.success row ∧ st.userProfile = some row := by
  intro st hst
  simp only [onRefreshTrace, List.mem_cons, List.mem_singleton] at hst
  rcases hst with rfl | rfl | rfl | rfl | h'
  · exact Or.inl h
  · exact Or.inl h
  · cases user with
    | none => exact Or.inl h
    | some u =>
      cases outcome with
      | success row => exact Or.inr ⟨row, rfl, rfl⟩
      | failure e => exact Or.inl h
      | thrown e => exact Or.inl h
  · cases user with
    | none => exact Or.inl h
    | some u =>
      cases outcome with
      | success row => exact Or.inr ⟨row, rfl, rfl⟩
      | failure e => exact Or.inl h
      | thrown e => exact Or.inl h
  · cases h'

/-- Witness for C7: for a concrete displayed row and a failing refresh,
the state right after the awaited fetch still holds the old row. -/
theorem refresh_never_clears_profile_witness :
    (fetchUserProfile (some ⟨"u1", "a@x.com", none⟩) (FetchOutcome.failure "boom")
        { userProfile := some ⟨"u1", "a@x.com", "", 1000, 0, 0⟩, loading := false,
          refreshing := true, alerts := [], storeCalls := 1 }).userProfile =
      some ⟨"u1", "a@x.com", "", 1000, 0, 0⟩ ∨
    ∃ row, FetchOutcome.failure "boom" = FetchOutcome.success row ∧
      (fetchUserProfile (some ⟨"u1", "a@x.com", none⟩) (FetchOutcome.failure "boom")
          { userProfile := some ⟨"u1", "a@x.com", "", 1000, 0, 0⟩, loading := false,
            refreshing := true, alerts := [], storeCalls := 1 }).userProfile = some row :=
  refresh_never_clears_profile (some ⟨"u1", "a@x.com", none⟩)
    (FetchOutcome.failure "boom")
    ⟨some ⟨"u1", "a@x.com", "", 1000, 0, 0⟩, false, false, [], 1⟩
    ⟨"u1", "a@x.com", "", 1000, 0, 0⟩ rfl _ (by decide)

/-- C10: with a null identity handle the fetch returns before the try
block — the state is unchanged (profile stays none, loading is never set
to false, no alert), and however many times it re-runs, a screen in the
loading state keeps rendering the Loading view. -/
theorem null_user_fetch_is_noop (outcome : FetchOutcome) (s : ScreenState) (n : Nat) :
    fetchUserProfile none outcome s = s ∧
    (fetchUserProfile none outcome)^[n] s = s ∧
    homeRender { s with loading := true } = HomeRender.loadingView ∧
    homeRender ((fetchUserProfile none outcome)^[n] { s with loading := true }) =
      HomeRender.loadingView := by
  have hid : fetchUserProfile none outcome = id := by
    funext t
    rfl
  refine ⟨rfl, ?_, rfl, ?_⟩
  · rw [hid, Function.iterate_id]
    rfl
  · rw [hid, Function.iterate_id]
    rfl

/-! ### Splash router (app/index.tsx) -/

/-- The auth context as the splash screen sees it: nullable identity and
the loading (unresolved) flag. -/
structure AuthState where
  user : Option String
  loading : Bool
deriving DecidableEq, Repr

/-- The two navigation targets of the router effect. -/
inductive Route
  | tabs
  | signIn
deriving DecidableEq, Repr

/-- The body of the useEffect in IndexScreen: nothing while loading;
once resolved, replace to the tabs area when an identity is present,
otherwise to the sign-in entry point. -/
def indexEffect (s : AuthState) : Option Route :=
  if s.loading then none
  else if s.user.isSome then some Route.tabs else some Route.signIn

/-- What IndexScreen renders: always the centered ActivityIndicator. -/
def indexRender (_ : AuthState) : String :=
  "ActivityIndicator"

/-- React effect scheduling for a dependency array [user, loading]: the
effect runs after the first render and whenever the dependencies change. -/
def effectFires (prev : Option AuthState) (s : AuthState) : Bool :=
  match prev with
  | none => true
  | some p => decide (s ≠ p)

/-- The routes emitted over a sequence of auth states, firing the effect
exactly when the dependencies changed since the previous render. -/
def routeEvents (prev : Option AuthState) : List AuthState → List Route
  | [] => []
  | s :: rest =>
    (if effectFires prev s then (indexEffect s).toList else []) ++
      routeEvents (some s) rest

/-- Repeating the state the effect last saw fires nothing. -/
theorem routeEvents_replicate_same (s : AuthState) (m : Nat) :
    routeEvents (some s) (List.replicate m s) = [] := by
  induction m with
  | zero => rfl
  | succ m ih =>
    simp [List.replicate_succ, routeEvents, effectFires, ih]

/-- A run of unchanged states in front contributes no route events. -/
theorem routeEvents_skip_replicate (s : AuthState) (k : Nat) (rest : List AuthState) :
    routeEvents (some s) (List.replicate k s ++ rest) = routeEvents (some s) rest := by
  induction k with
  | zero => rfl
  | succ k ih =>
    simp [List.replicate_succ, routeEvents, effectFires, ih]

/-- C8: the splash router shows the loading indicator while the auth
state is unresolved, and over a history of k unresolved renders followed
by resolved renders with a stable identity it emits exactly one route —
to the tabs area when an identity is present, else to sign-in. -/
theorem splash_router_routes_once (k m : Nat) (u0 u : Option String) :
    (∀ s : AuthState, s.loading = true → indexRender s = "ActivityIndicator") ∧
    routeEvents none
        (List.replicate k ⟨u0, true⟩ ++ List.replicate (m + 1) ⟨u, false⟩) =
      [if u.isSome then Route.tabs else Route.signIn] := by
  constructor
  · intro s _
    rfl
  · cases k with
    | zero =>
      rcases u with _ | uid <;>
        simp [List.replicate_succ, routeEvents, effectFires, indexEffect,
          routeEvents_replicate_same]
    | succ k =>
      rw [List.replicate_succ, List.cons_append]
      rcases u with _ | uid <;>
        simp [routeEvents, effectFires, indexEffect, routeEvents_skip_replicate,
          List.replicate_succ, routeEvents_replicate_same, AuthState.mk.injEq]

/-- Witness for C8: two unresolved renders followed by a resolved render
with an identity route exactly once, to the tabs area. -/
theorem splash_router_routes_once_witness :
    indexRender ⟨none, true⟩ = "ActivityIndicator" ∧
    routeEvents none
        (List.replicate 2 ⟨none, true⟩ ++ List.replicate 1 ⟨some "u1", false⟩) =
      [Route.tabs] :=
  ⟨(splash_router_routes_once 2 0 none (some "u1")).1 ⟨none, true⟩ rfl,
   (splash_router_routes_once 2 0 none (some "u1")).2⟩

/-! ### Row-level security policies -/

/-- The SQL command a policy applies to. -/
inductive SqlCmd
  | select
  | insert
  | update
  | delete
deriving DecidableEq, Repr

/-- One CREATE POLICY statement: name, command, USING predicate over
(auth.uid(), row) and WITH CHECK predicate over (auth.uid(), row). -/
structure PolicyDef where
  name : String
  cmd : SqlCmd
  usingPred : String → UserProfileRow → Bool
  checkPred : String → UserProfileRow → Bool

/-- The three policies created on user_profiles for the authenticated
role: read/update/insert scoped to auth.uid() = id; no delete policy. -/
def userProfilesPolicies : List PolicyDef :=
  [ { name := "Users can read own profile", cmd := SqlCmd.select,
      usingPred := fun uid row => decide (uid = row.id),
      checkPred := fun _ _ => true },
    { name := "Users can update own profile", cmd := SqlCmd.update,
      usingPred := fun uid row => decide (uid = row.id),
      checkPred := fun uid row => decide (uid = row.id) },
    { name := "Users can insert own profile", cmd := SqlCmd.insert,
      usingPred := fun uid row => decide (uid = row.id),
      checkPred := fun uid row => decide (uid = row.id) } ]

/-- Row-level security with default deny: an authenticated identity may
select a row iff some SELECT policy's USING clause passes. -/
def rlsCanSelect (uid : String) (row : UserProfileRow) : Bool :=
  userProfilesPolicies.any fun p => p.cmd == SqlCmd.select && p.usingPred uid row

/-- An update must pass some UPDATE policy's USING clause on the old row
and its WITH CHECK clause on the new row. -/
def rlsCanUpdate (uid : String) (old new : UserProfileRow) : Bool :=
  userProfilesPolicies.any fun p =>
    p.cmd == SqlCmd.update && p.usingPred uid old && p.checkPred uid new

/-- An insert must pass some INSERT policy's WITH CHECK clause. -/
def rlsCanInsert (uid : String) (new : UserProfileRow) : Bool :=
  userProfilesPolicies.any fun p => p.cmd == SqlCmd.insert && p.checkPred uid new

/-- A delete must pass some DELETE policy's USING clause; with none
declared, default deny applies. -/
def rlsCanDelete (uid : String) (row : UserProfileRow) : Bool :=
  userProfilesPolicies.any fun p => p.cmd == SqlCmd.delete && p.usingPred uid row

/-- Deleting an identity row: ON DELETE CASCADE on the foreign key removes
the profile rows whose id references the deleted identity. -/
def deleteAuthUserCascade (uid : String) (db : Database) : Database :=
  { authUsers := db.authUsers.filter fun a => a.id != uid
    profiles := db.profiles.filter fun r => r.id != uid }

/-- C9: the policies restrict every authenticated identity to its own
row — select, update and insert are allowed exactly when auth.uid()
equals the row id (for update, on both the old and the new row), delete
is never allowed directly because no delete policy exists, and the only
deletion path is the cascade from deleting the owning identity, which
removes exactly that identity's profile rows. -/
theorem rls_restricts_to_own_row (uid : String) (row other : UserProfileRow)
    (db : Database) :
    (rlsCanSelect uid row = true ↔ uid = row.id) ∧
    (rlsCanUpdate uid row other = true ↔ (uid = row.id ∧ uid = other.id)) ∧
    (rlsCanInsert uid row = true ↔ uid = row.id) ∧
    rlsCanDelete uid row = false ∧
    (userProfilesPolicies.all fun p => p.cmd != SqlCmd.delete) = true ∧
    ((deleteAuthUserCascade uid db).profiles.all fun r => r.id != uid) = true := by
  refine ⟨?_, ?_, ?_, ?_, ?_, ?_⟩
  · simp [rlsCanSelect, userProfilesPolicies]
  · simp [rlsCanUpdate, userProfilesPolicies]
  · simp [rlsCanInsert, userProfilesPolicies]
  · simp [rlsCanDelete, userProfilesPolicies]
  · rfl
  · simp [deleteAuthUserCascade, List.all_eq_true, List.mem_filter]

/-- Witness for C9: identity u1 may select its own row; identity u2 may
not delete it. -/
theorem rls_restricts_to_own_row_witness :
    rlsCanSelect "u1" ⟨"u1", "a@x.com", "", 1000, 0, 0⟩ = true ∧
    rlsCanDelete "u2" ⟨"u1", "a@x.com", "", 1000, 0, 0⟩ = false :=
  ⟨(rls_restricts_to_own_row "u1" ⟨"u1", "a@x.com", "", 1000, 0, 0⟩
      ⟨"u1", "a@x.com", "", 1000, 0, 0⟩ ⟨[], []⟩).1.mpr rfl,
   (rls_restricts_to_own_row "u2" ⟨"u1", "a@x.com", "", 1000, 0, 0⟩
      ⟨"u1", "a@x.com", "", 1000, 0, 0⟩ ⟨[], []⟩).2.2.2.1⟩

end EarnPoints
